import Mathlib

/-!
Verification of the AI task-simplifier pipeline (src/ai/task_simplifier.py).

The Python module is shallowly embedded: each Python function becomes a Lean
definition of the same name, dictionaries with a fixed key set become
structures, and the external LLM call (src/ai/llm_client.py, call_llm_structured)
is modelled as an explicit behaviour function `Nat → LLMCall → Except Unit
ParsedResponse` passed to the orchestrator (the argument is the attempt index;
`Except.error` models the call raising an exception, which the orchestrator
catches uniformly).  Python floats are modelled as rationals; the anchored
regular-expression patterns of the source (each of the form
`^\s*PHRASE\s*$`, matched against an already stripped string) are modelled by
the finite set of strings they accept.
-/

namespace TaskSimplifier

/-- Model of Python `str.lower()` (per-character lowering; the pipeline only
distinguishes ASCII). -/
def pyLower (s : String) : String := ⟨s.data.map Char.toLower⟩

/-- Model of Python `str.strip()`: drop leading and trailing whitespace. -/
def pyStrip (s : String) : String :=
  ⟨((s.data.dropWhile Char.isWhitespace).reverse.dropWhile Char.isWhitespace).reverse⟩

/-- Model of the Python substring test `needle in hay`. -/
def str_in (needle hay : String) : Bool := decide (needle.data <:+: hay.data)

/-- One step of a simplified task: an element of `simplified_steps`
(`{step_number, instruction}` in the JSON schema of llm_client.py). -/
structure Step where
  step_number : Int
  instruction : String
deriving DecidableEq

/-- A parsed structured response from the LLM, with exactly the fields of
`task_simplifier_schema` in llm_client.py. -/
structure ParsedResponse where
  task_id : String
  confidence_score : Rat
  simplified_steps : List Step
  clarification_needed : Bool
  clarification_question : String
deriving DecidableEq

/-- Result of `validate`: the dict `{"passed": ..., "errors": ...}`. -/
structure ValidationOutcome where
  passed : Bool
  errors : List String
deriving DecidableEq

/-- The `fallback` field of the response envelope. -/
structure Fallback where
  type : String
  message : String
  template_steps : List Step
deriving DecidableEq

/-- The `telemetry` field: either the empty dict `\x7b\x7d` or the dict built on the
ACCEPT path (`prompt_version`, `attempt`, `validation_passed`). -/
inductive Telemetry where
  | empty
  | attemptInfo (prompt_version : String) (attempt : Nat) (validation_passed : Bool)
deriving DecidableEq

/-- The response envelope produced by `simplify_task`: all seven fields of the
contract are always present. -/
structure SimplificationResult where
  task_id : String
  status : String
  confidence_score : Rat
  reasons : List String
  simplified_steps : List Step
  fallback : Fallback
  telemetry : Telemetry
deriving DecidableEq

/-- The request mapping consumed by `simplify_task` (defaults already applied
by `request.get`; `model` is `Option` because Python distinguishes a missing
or `None` value, replaced by the default model identifier). -/
structure TaskRequest where
  task_id : String
  task_text : String
  task_type : String
  accessibility_mode : String
  model : Option String
deriving DecidableEq

/-- The dict returned by `select_prompts`. -/
structure Prompts where
  system : String
  user : String
deriving DecidableEq

/-- One invocation of `call_llm_structured`: the keyword arguments it
receives. -/
structure LLMCall where
  model : String
  system_prompt : String
  user_prompt : String
  temperature : Rat
deriving DecidableEq

/-- A behaviour of the external LLM service: for each attempt index, either a
parsed structured response or a raised exception (modelled as
`Except.error ()`; the orchestrator treats every exception identically). -/
abbrev LLMBehavior := Nat → LLMCall → Except Unit ParsedResponse

/-! ## Constants (task_simplifier.py lines 10-26) -/

def CONF_ACCEPT : Rat := mkRat 85 100
def CONF_MIN : Rat := mkRat 70 100
def MAX_RETRY : Nat := 1

/-- The strings accepted by the four anchored regexes of
`VAGUE_TASK_PATTERNS`: each pattern is `^\s*PHRASE\s*$` with optional groups,
matched against an already stripped string, so it accepts exactly these
literal phrases. -/
def VAGUE_TASK_PATTERNS : List String :=
  ["fix issue", "fix the issue",
   "do project stuff",
   "handle", "handle it", "handle this",
   "do", "do it", "do stuff"]

def MULTI_ACTION_HINTS : List String := [" and ", " then "]

/-- The strings accepted by the three anchored regexes of
`VAGUE_STEP_PATTERNS` (matched against an already stripped string). -/
def VAGUE_STEP_PATTERNS : List String := ["do it", "handle it", "work on it"]

/-! ## select_prompts (lines 29-71) -/

def select_prompts (task_type : String) (mode : String) (strict : Bool) : Prompts :=
  let rules : List String :=
    ["You are an AI Task Simplifier.",
     "Break the user\x27s task into clear, numbered steps.",
     "One action per step. Do NOT combine actions.",
     "Use simple, direct language.",
     "Return ONLY what the JSON schema requests.",
     "If the task is unclear, set clarification_needed=true and ask ONE question.",
     "Lower confidence_score when uncertain."]
  let m := pyLower (if mode = "" then "Standard" else mode)
  let rules := rules ++
    (if m = "simplified" then
       ["Use very simple words.", "Max 12 words per step.", "Prefer 3–6 steps."]
     else if m = "voice-first" then
       ["Use short spoken-friendly sentences.",
        "Avoid visual references (e.g., \x27see chart\x27)."]
     else if m = "visual-assist" then
       ["Make steps skimmable and checklist-like."]
     else if m = "assistive" then
       ["Use supportive tone. Avoid long sentences."]
     else [])
  let rules := rules ++
    (if strict then
       ["Be extra strict: if missing outcome/audience/format, ask clarification.",
        "Do not exceed 6 steps unless unavoidable."]
     else [])
  { system := String.intercalate "\n" rules ++ "\nTask type: " ++ task_type ++ ".",
    user := "User task:\n\x7b\x7bTASK_TEXT\x7d\x7d" }

/-! ## is_task_vague (lines 74-78) -/

def is_task_vague (task_text : String) : Bool :=
  let t := pyLower (pyStrip task_text)
  if t.length < 10 then true
  else VAGUE_TASK_PATTERNS.contains t

/-! ## Step-list checks (lines 81-101) -/

def steps_sequential (steps : List Step) : Bool :=
  steps.map Step.step_number == (List.range steps.length).map (fun i => (i : Int) + 1)

def one_action_per_step (steps : List Step) : Bool :=
  steps.all (fun s =>
    !(MULTI_ACTION_HINTS.any (fun h => str_in h (pyLower s.instruction))))

def vague_steps (steps : List Step) : Bool :=
  steps.any (fun s =>
    let instr := pyLower (pyStrip s.instruction)
    VAGUE_STEP_PATTERNS.contains instr || instr.length < 6)

/-! ## basic_relevance_check (lines 104-118) -/

def isAsciiAlpha (c : Char) : Bool :=
  (decide (Char.ofNat 97 ≤ c) && decide (c ≤ Char.ofNat 122)) ||
  (decide (Char.ofNat 65 ≤ c) && decide (c ≤ Char.ofNat 90))

/-- Splits a character list into its maximal runs of (ASCII) alphabetic
characters, in order; `acc` holds the current run reversed. -/
def alphaRunsAux : List Char → List Char → List (List Char)
  | [], acc => if acc.isEmpty then [] else [acc.reverse]
  | c :: cs, acc =>
    if isAsciiAlpha c then alphaRunsAux cs (c :: acc)
    else if acc.isEmpty then alphaRunsAux cs acc
    else acc.reverse :: alphaRunsAux cs []

/-- Model of `re.findall(r"[a-zA-Z]\x7b4,\x7d", s)`: the maximal alphabetic runs
of length at least 4, in order of occurrence. -/
def findall_alpha4 (s : String) : List String :=
  ((alphaRunsAux s.data []).filter (fun r => 4 ≤ r.length)).map (fun r => ⟨r⟩)

def basic_relevance_check (task_text : String) (steps : List Step)
    (task_type : String) : Bool :=
  let task := pyLower task_text
  let step_text := pyLower (String.intercalate " " (steps.map Step.instruction))
  let keywords := (findall_alpha4 task).take 6
  let overlap := (keywords.filter (fun k => str_in k step_text)).length
  if pyLower task_type = "reporting" then
    if ["report", "summary", "template"].all (fun x => !(str_in x step_text)) then
      false
    else decide (1 ≤ overlap)
  else decide (1 ≤ overlap)

/-! ## Rendering of the low-confidence message (line 134) -/

/-- The d-th decimal digit character (d expected below 10). -/
def digitChar (d : Nat) : Char := ("0123456789".data).getD d (Char.ofNat 57)

/-- Digits of n in order, most significant first; fuel-driven recursion,
called with fuel above n. -/
def renderNatAux : Nat → Nat → List Char → List Char
  | 0, _, acc => acc
  | fuel + 1, n, acc =>
    if n < 10 then digitChar n :: acc
    else renderNatAux fuel (n / 10) (digitChar (n % 10) :: acc)

def renderNat (n : Nat) : String := ⟨renderNatAux (n + 1) n []⟩

/-- Model of the Python formatting `f"\x7bconf:.2f\x7d"`: a fixed two-decimal
rendering of the rational.  Only the character inventory of the rendering
(digits, a sign, a decimal point) is relevant to the pipeline, which inspects
error strings solely through the substring tests of simplify_task line 246. -/
def format_2f (c : Rat) : String :=
  let scaled : Int := c.num * 100 / (c.den : Int)
  let sign : String := if scaled < 0 then "-" else ""
  let n : Nat := scaled.natAbs
  sign ++ renderNat (n / 100) ++ "." ++ ⟨[digitChar (n % 100 / 10), digitChar (n % 10)]⟩

/-! ## validate (lines 121-146) -/

def validate (task_text task_type : String) (resp : ParsedResponse) :
    ValidationOutcome :=
  let steps := resp.simplified_steps
  let conf := resp.confidence_score
  let errors : List String :=
    (if steps.length = 0 then ["No steps returned"] else []) ++
    (if conf < CONF_MIN then ["Low confidence: " ++ format_2f conf] else []) ++
    (if steps.isEmpty then []
     else
       (if !(steps_sequential steps) then ["Steps not sequential"] else []) ++
       (if !(one_action_per_step steps) then ["Multiple actions detected in a step"] else []) ++
       (if vague_steps steps then ["Vague/non-actionable steps detected"] else []) ++
       (if !(basic_relevance_check task_text steps task_type) then ["Relevance check failed"] else []))
  { passed := errors.isEmpty, errors := errors }

/-! ## Canned responses (lines 149-182) -/

def clarification_response (task_id : String) (message : String) :
    SimplificationResult :=
  { task_id := task_id
    status := "CLARIFY"
    confidence_score := 0
    reasons := ["Clarification required"]
    simplified_steps := []
    fallback := { type := "CLARIFICATION", message := message, template_steps := [] }
    telemetry := Telemetry.empty }

def generic_template (task_type : String) : List String :=
  if pyLower task_type = "reporting" then
    ["Collect info.", "Fill template.", "Write summary.", "Review.", "Submit."]
  else if pyLower task_type = "technical" then
    ["Describe problem.", "Check changes.", "Try simplest fix.", "Record errors.",
     "Escalate with details."]
  else
    ["Define goal.", "List what you need.", "Do first step.", "Check progress.",
     "Finish and confirm."]

def template_response (task_id : String) (message : String)
    (template_steps : List String) : SimplificationResult :=
  { task_id := task_id
    status := "TEMPLATE"
    confidence_score := 0
    reasons := ["Template fallback used"]
    simplified_steps := []
    fallback :=
      { type := "TEMPLATE", message := message
        template_steps := template_steps.enum.map
          (fun p => { step_number := (p.1 : Int) + 1, instruction := p.2 }) }
    telemetry := Telemetry.empty }

/-! ## simplify_task (lines 185-251) -/

/-- The model identifier actually used: `request.get("model") or
"gpt-4o-2024-08-06"` (a missing, None or empty value falls back to the
default). -/
def effective_model (req : TaskRequest) : String :=
  match req.model with
  | none => "gpt-4o-2024-08-06"
  | some m => if m = "" then "gpt-4o-2024-08-06" else m

/-- The keyword arguments `simplify_task` passes to `call_llm_structured` on a
given attempt (lines 207-218). -/
def attempt_call (req : TaskRequest) (attempt : Nat) : LLMCall :=
  let strict := attempt == 1
  let prompts := select_prompts req.task_type req.accessibility_mode strict
  { model := effective_model req
    system_prompt := prompts.system
    user_prompt := prompts.user.replace "\x7b\x7bTASK_TEXT\x7d\x7d" req.task_text
    temperature := if strict then (0 : Rat) else mkRat 2 10 }

/-- The envelope built on the ACCEPT path (lines 229-239).  The status keeps
verbatim the conditional of the source, which yields "ACCEPT" in both
branches. -/
def accept_response (task_id : String) (resp : ParsedResponse) (attempt : Nat) :
    SimplificationResult :=
  let conf := resp.confidence_score
  { task_id := task_id
    status := if CONF_ACCEPT ≤ conf then "ACCEPT" else "ACCEPT"
    confidence_score := conf
    reasons := []
    simplified_steps := resp.simplified_steps
    fallback := { type := "NONE", message := "", template_steps := [] }
    telemetry := Telemetry.attemptInfo "v1.0" (attempt + 1) true }

/-- The `while attempt <= MAX_RETRY` loop of `simplify_task` (lines 206-251),
instrumented with the number of LLM invocations made so far.  The fuel
argument equals `MAX_RETRY + 1 - attempt` throughout; exhausted fuel is the
loop falling through to line 251. -/
def simplify_task_aux (llm : LLMBehavior) (req : TaskRequest) :
    Nat → Nat → Nat → SimplificationResult × Nat
  | _, calls, 0 =>
    (template_response req.task_id "Could not process task. Use this starter checklist."
      (generic_template req.task_type), calls)
  | attempt, calls, fuel + 1 =>
    match llm attempt (attempt_call req attempt) with
    | Except.error _ =>
      if attempt < MAX_RETRY then
        simplify_task_aux llm req (attempt + 1) (calls + 1) fuel
      else
        (template_response req.task_id "AI service unavailable. Use this starter checklist."
          (generic_template req.task_type), calls + 1)
    | Except.ok resp =>
      let resp2 := { resp with task_id := req.task_id }
      let validation := validate req.task_text req.task_type resp2
      if validation.passed then
        (accept_response req.task_id resp2 attempt, calls + 1)
      else if attempt < MAX_RETRY then
        simplify_task_aux llm req (attempt + 1) (calls + 1) fuel
      else if validation.errors.any (fun e => str_in "Relevance check failed" e) ||
              validation.errors.any (fun e => str_in "vague" (pyLower e)) then
        (clarification_response req.task_id "What is the expected output and who is it for?",
         calls + 1)
      else
        (template_response req.task_id "Could not simplify reliably. Use this starter checklist."
          (generic_template req.task_type), calls + 1)

/-- `simplify_task` together with the number of calls made to the LLM
invoker. -/
def simplify_task_run (llm : LLMBehavior) (req : TaskRequest) :
    SimplificationResult × Nat :=
  if is_task_vague req.task_text then
    (clarification_response req.task_id
      "Please add outcome, deadline, and required format (if any).", 0)
  else
    simplify_task_aux llm req 0 0 (MAX_RETRY + 1)

def simplify_task (llm : LLMBehavior) (req : TaskRequest) : SimplificationResult :=
  (simplify_task_run llm req).1

/-- Number of invocations of the LLM invoker during `simplify_task`. -/
def llm_call_count (llm : LLMBehavior) (req : TaskRequest) : Nat :=
  (simplify_task_run llm req).2

/-! ## Spec-side definitions used for refinement claims -/

/-- The relevance criterion as the specification words it (section 4.4, check
6): some keyword among the first six 4-plus-letter alphabetic tokens of the
lower-cased task text occurs in the concatenated instructions, and, when the
task type is Reporting case-insensitively, some of the three literal reporting
substrings also occurs there. -/
def relevance_check_spec (task_text : String) (steps : List Step)
    (task_type : String) : Bool :=
  let step_text := pyLower (String.intercalate " " (steps.map Step.instruction))
  let keywords := (findall_alpha4 (pyLower task_text)).take 6
  keywords.any (fun k => str_in k step_text) &&
    (!(pyLower task_type = "reporting" : Bool) ||
      ["report", "summary", "template"].any (fun x => str_in x step_text))

/-- Shorthand for the ACCEPT-path envelope contents asserted by the
specification: status ACCEPT, the model confidence and steps reported
unchanged, empty reasons, fallback of type NONE. -/
def accepted_with (r : SimplificationResult) (resp : ParsedResponse) : Prop :=
  r.status = "ACCEPT" ∧
  r.confidence_score = resp.confidence_score ∧
  r.simplified_steps = resp.simplified_steps ∧
  r.reasons = [] ∧
  r.fallback = { type := "NONE", message := "", template_steps := [] }

/-! ## Concrete fixtures for witnesses and counterexamples -/

def reqVague : TaskRequest := ⟨"t0", "fix the issue", "Unknown", "Standard", none⟩

def reqReport : TaskRequest :=
  ⟨"t1", "Write the quarterly report", "Unknown", "Standard", none⟩

def reqWeekly : TaskRequest :=
  ⟨"t2", "Write the weekly report", "Reporting", "Standard", none⟩

def respReport : ParsedResponse :=
  ⟨"x", mkRat 9 10,
   [⟨1, "Open the report template."⟩, ⟨2, "Fill in last week numbers."⟩],
   false, ""⟩

def respDoIt : ParsedResponse := ⟨"x", mkRat 9 10, [⟨1, "Do it."⟩], false, ""⟩

def respEmpty : ParsedResponse := ⟨"x", mkRat 9 10, [], false, ""⟩

def llmFailing : LLMBehavior := fun _ _ => Except.error ()

def llmReport : LLMBehavior := fun _ _ => Except.ok respReport

def llmDoIt : LLMBehavior := fun _ _ => Except.ok respDoIt

def llmEmpty : LLMBehavior := fun _ _ => Except.ok respEmpty

/-! ## Helper lemmas -/

theorem string_data_append (a b : String) : (a ++ b).data = a.data ++ b.data := rfl

theorem pyLower_data (s : String) : (pyLower s).data = s.data.map Char.toLower := rfl

/-- A string whose first character does not occur in the hay is not a
substring of the hay. -/
theorem str_in_eq_false_of_head {x : Char} {xs : List Char} {needle hay : String}
    (hn : needle.data = x :: xs) (hx : x ∉ hay.data) :
    str_in needle hay = false := by
  unfold str_in
  rw [decide_eq_false_iff_not]
  intro hinf
  rw [hn] at hinf
  exact hx (hinf.subset (List.mem_cons_self x xs))

theorem digitChar_mem (d : Nat) : digitChar d ∈ "0123456789.-".data := by
  unfold digitChar
  rcases Nat.lt_or_ge d 10 with h | h
  · interval_cases d <;> decide
  · rw [List.getD_eq_default]
    · decide
    · simpa using h

theorem renderNatAux_chars :
    ∀ (fuel n : Nat) (acc : List Char), (∀ c ∈ acc, c ∈ "0123456789.-".data) →
      ∀ c ∈ renderNatAux fuel n acc, c ∈ "0123456789.-".data := by
  intro fuel
  induction fuel with
  | zero => intro n acc hacc c hc; exact hacc c hc
  | succ f ih =>
    intro n acc hacc c hc
    unfold renderNatAux at hc
    split at hc
    · rcases List.mem_cons.mp hc with rfl | h
      · exact digitChar_mem n
      · exact hacc c h
    · refine ih (n / 10) (digitChar (n % 10) :: acc) ?_ c hc
      intro c' hc'
      rcases List.mem_cons.mp hc' with rfl | h
      · exact digitChar_mem (n % 10)
      · exact hacc c' h

theorem format_2f_chars (q : Rat) :
    ∀ c ∈ (format_2f q).data, c ∈ "0123456789.-".data := by
  simp only [format_2f, renderNat]
  intro c hc
  rw [string_data_append, string_data_append, string_data_append] at hc
  rcases List.mem_append.mp hc with hc' | hc'
  · rcases List.mem_append.mp hc' with hcc | hcc
    · rcases List.mem_append.mp hcc with hs | hr
      · revert hs
        split <;> intro hs
        · rcases List.mem_cons.mp hs with rfl | h
          · decide
          · simp at h
        · simp at hs
      · exact renderNatAux_chars _ _ [] (by intro c' h; simp at h) c hr
    · rcases List.mem_cons.mp hcc with rfl | h
      · decide
      · simp at h
  · rcases List.mem_cons.mp hc' with rfl | h
    · exact digitChar_mem _
    · rcases List.mem_cons.mp h with rfl | h'
      · exact digitChar_mem _
      · simp at h'

/-- The low-confidence error string never triggers the clarify branch of
`simplify_task` line 246: it does not contain "Relevance check failed", and
its lower-casing does not contain "vague". -/
theorem lowconf_no_trigger (q : Rat) :
    str_in "Relevance check failed" ("Low confidence: " ++ format_2f q) = false ∧
    str_in "vague" (pyLower ("Low confidence: " ++ format_2f q)) = false := by
  constructor
  · have hhead : ("Relevance check failed").data =
        Char.ofNat 82 :: ("elevance check failed").data := by decide
    refine str_in_eq_false_of_head hhead ?_
    rw [string_data_append]
    intro hmem
    have hR : Char.ofNat 82 ∉ "0123456789.-".data := by decide
    rcases List.mem_append.mp hmem with h | h
    · revert h; decide
    · exact hR (format_2f_chars q _ h)
  · have hhead : ("vague").data = Char.ofNat 118 :: ("ague").data := by decide
    refine str_in_eq_false_of_head hhead ?_
    rw [pyLower_data, string_data_append, List.map_append]
    intro hmem
    have hdig : ∀ c ∈ "0123456789.-".data, Char.toLower c = c := by decide
    have hv : Char.ofNat 118 ∉ "0123456789.-".data := by decide
    rcases List.mem_append.mp hmem with h | h
    · revert h; decide
    · rcases List.mem_map.mp h with ⟨c, hc, hlow⟩
      have hset := format_2f_chars q _ hc
      rw [hdig c hset] at hlow
      rw [hlow] at hset
      exact hv hset

/-- With an empty step list, `validate` records only the no-steps error and,
when the confidence is below the floor, the low-confidence error; none of the
four step-based checks runs. -/
theorem validate_empty_steps (t ty : String) (resp : ParsedResponse)
    (h : resp.simplified_steps = []) :
    (validate t ty resp).errors =
      "No steps returned" ::
        (if resp.confidence_score < CONF_MIN then
          ["Low confidence: " ++ format_2f resp.confidence_score] else []) ∧
    (validate t ty resp).passed = false := by
  constructor
  · simp [validate, h]
  · simp [validate, h]

/-- The error list produced for an empty step list never triggers the clarify
branch of `simplify_task` line 246. -/
theorem empty_errors_no_trigger (q : Rat) :
    (("No steps returned" ::
        (if q < CONF_MIN then ["Low confidence: " ++ format_2f q] else [])).any
        (fun e => str_in "Relevance check failed" e) ||
     ("No steps returned" ::
        (if q < CONF_MIN then ["Low confidence: " ++ format_2f q] else [])).any
        (fun e => str_in "vague" (pyLower e))) = false := by
  have hA : str_in "Relevance check failed" "No steps returned" = false := by decide
  have hB : str_in "vague" (pyLower "No steps returned") = false := by decide
  by_cases hq : q < CONF_MIN <;>
    simp [hq, hA, hB, (lowconf_no_trigger q).1, (lowconf_no_trigger q).2]

/-- Whatever the rendered confidence, the low-confidence error starts with
an upper-case L. -/
theorem lowconf_head (x : String) :
    ("Low confidence: " ++ x).data.head? = some (Char.ofNat 76) := by
  rw [string_data_append]
  rfl

/-- If `l` is an infix of `m` long enough that any placement of it inside `m`
covers index `i`, then the element of `m` at `i` occurs in `l`. -/
theorem mem_of_infix_get {α : Type} {l m : List α} {i : Nat} (h : l <:+: m)
    (h1 : m.length - l.length ≤ i) (h2 : i < l.length) (h3 : i < m.length) :
    m.get ⟨i, h3⟩ ∈ l := by
  simp only [List.get_eq_getElem]
  obtain ⟨s, t, rfl⟩ := h
  have hs : s.length ≤ i := by
    simp only [List.length_append] at h1
    omega
  have hj : i - s.length < l.length := by omega
  have h4 : i < (s ++ l).length := by
    simp only [List.length_append]
    omega
  rw [List.getElem_append_left h4, List.getElem_append_right hs]
  exact List.getElem_mem _

/-- Every character of every run produced by `alphaRunsAux` is alphabetic
(provided the accumulated run is). -/
theorem alphaRunsAux_mem_alpha :
    ∀ (l acc : List Char), (∀ c ∈ acc, isAsciiAlpha c = true) →
      ∀ r ∈ alphaRunsAux l acc, ∀ c ∈ r, isAsciiAlpha c = true := by
  intro l
  induction l with
  | nil =>
    intro acc hacc r hr c hc
    unfold alphaRunsAux at hr
    split at hr
    · simp at hr
    · rw [List.mem_singleton] at hr
      subst hr
      exact hacc c (List.mem_reverse.mp hc)
  | cons x xs ih =>
    intro acc hacc r hr c hc
    unfold alphaRunsAux at hr
    split at hr
    · refine ih (x :: acc) ?_ r hr c hc
      intro c' hc'
      rcases List.mem_cons.mp hc' with rfl | h
      · assumption
      · exact hacc c' h
    · split at hr
      · exact ih acc hacc r hr c hc
      · rcases List.mem_cons.mp hr with rfl | h
        · exact hacc c (List.mem_reverse.mp hc)
        · exact ih [] (by intro c' h'; simp at h') r h c hc

/-- Every keyword extracted by `findall_alpha4` is an alphabetic token of
length at least 4. -/
theorem findall_alpha4_spec (s : String) :
    ∀ k ∈ findall_alpha4 s, (∀ c ∈ k.data, isAsciiAlpha c = true) ∧ 4 ≤ k.data.length := by
  unfold findall_alpha4
  intro k hk
  rcases List.mem_map.mp hk with ⟨r, hr, rfl⟩
  rcases List.mem_filter.mp hr with ⟨hrmem, hrlen⟩
  refine ⟨alphaRunsAux_mem_alpha s.data [] (by intro c h; simp at h) r hrmem, ?_⟩
  exact Nat.le_of_ble_eq_true (by simpa using hrlen)

/-- No alphabetic token of length at least 4 occurs inside "do it.": any such
placement would cover the space at index 2. -/
theorem alpha_run_not_in_doit (k : String)
    (halpha : ∀ c ∈ k.data, isAsciiAlpha c = true) (hlen : 4 ≤ k.data.length) :
    str_in k "do it." = false := by
  unfold str_in
  rw [decide_eq_false_iff_not]
  intro hinf
  have hle : k.data.length ≤ ("do it.").data.length := hinf.length_le
  have h6 : 2 < ("do it.").data.length := by decide
  have hmem : ("do it.").data.get ⟨2, h6⟩ ∈ k.data := by
    refine mem_of_infix_get hinf ?_ ?_ h6
    · have : ("do it.").data.length = 6 := by decide
      omega
    · omega
  have h2 : ("do it.").data.get ⟨2, h6⟩ = Char.ofNat 32 := rfl
  rw [h2] at hmem
  have := halpha _ hmem
  revert this
  decide

/-- The relevance check always fails on the single step "Do it.", for every
task text and task type: no extracted keyword (4-plus alphabetic characters)
can occur in "do it.", and the Reporting sentinels do not occur either. -/
theorem relevance_do_it (t ty : String) :
    basic_relevance_check t [⟨1, "Do it."⟩] ty = false := by
  have hstep : pyLower (String.intercalate " "
      (([⟨1, "Do it."⟩] : List Step).map Step.instruction)) = "do it." := by decide
  simp only [basic_relevance_check]
  rw [hstep]
  have hfil : List.filter (fun k => str_in k "do it.")
      (List.take 6 (findall_alpha4 (pyLower t))) = [] := by
    rw [List.filter_eq_nil_iff]
    intro k hk
    have hs := findall_alpha4_spec (pyLower t) k (List.mem_of_mem_take hk)
    simp [alpha_run_not_in_doit k hs.1 hs.2]
  rw [hfil]
  have hall : (["report", "summary", "template"].all fun x => !str_in x "do it.") = true := by
    decide
  split <;> simp [hall]

/-- For a response whose steps are exactly [(1, "Do it.")], `validate` fails
with a relevance error (plus possibly a low-confidence error), and in
particular without any vague-step error: the trailing period defeats the
anchored vague-step patterns and the stripped instruction has length exactly
6. -/
theorem validate_do_it (t ty : String) (resp : ParsedResponse)
    (h : resp.simplified_steps = [⟨1, "Do it."⟩]) :
    (validate t ty resp).errors =
      (if resp.confidence_score < CONF_MIN then
        ["Low confidence: " ++ format_2f resp.confidence_score] else []) ++
      ["Relevance check failed"] ∧
    (validate t ty resp).passed = false := by
  have hseq : steps_sequential [⟨1, "Do it."⟩] = true := by decide
  have hone : one_action_per_step [⟨1, "Do it."⟩] = true := by decide
  have hvg : vague_steps [⟨1, "Do it."⟩] = false := by decide
  have hrel := relevance_do_it t ty
  constructor
  · by_cases hq : resp.confidence_score < CONF_MIN <;>
      simp [validate, h, hseq, hone, hvg, hrel, hq]
  · by_cases hq : resp.confidence_score < CONF_MIN <;>
      simp [validate, h, hseq, hone, hvg, hrel, hq]

/-- The error list produced for the "Do it." response always triggers the
clarify branch of `simplify_task` line 246 (through its relevance error). -/
theorem doit_errors_trigger (q : Rat) :
    (((if q < CONF_MIN then ["Low confidence: " ++ format_2f q] else []) ++
        ["Relevance check failed"]).any (fun e => str_in "Relevance check failed" e) ||
     ((if q < CONF_MIN then ["Low confidence: " ++ format_2f q] else []) ++
        ["Relevance check failed"]).any (fun e => str_in "vague" (pyLower e))) = true := by
  have hself : str_in "Relevance check failed" "Relevance check failed" = true := by decide
  simp [hself]

/-- Unfolding of `simplify_task_run` when the pre-filter does not fire. -/
theorem simplify_task_run_not_vague (llm : LLMBehavior) (req : TaskRequest)
    (hv : is_task_vague req.task_text = false) :
    simplify_task_run llm req = simplify_task_aux llm req 0 0 (MAX_RETRY + 1) := by
  unfold simplify_task_run
  simp [hv]

/-- Unfolding of `simplify_task_run` when the pre-filter fires. -/
theorem simplify_task_run_vague (llm : LLMBehavior) (req : TaskRequest)
    (hv : is_task_vague req.task_text = true) :
    simplify_task_run llm req =
      (clarification_response req.task_id
        "Please add outcome, deadline, and required format (if any).", 0) := by
  unfold simplify_task_run
  simp [hv]

/-- One-step unfolding of the attempt loop. -/
theorem simplify_task_aux_succ (llm : LLMBehavior) (req : TaskRequest)
    (attempt calls fuel : Nat) :
    simplify_task_aux llm req attempt calls (fuel + 1) =
      match llm attempt (attempt_call req attempt) with
      | Except.error _ =>
        if attempt < MAX_RETRY then
          simplify_task_aux llm req (attempt + 1) (calls + 1) fuel
        else
          (template_response req.task_id "AI service unavailable. Use this starter checklist."
            (generic_template req.task_type), calls + 1)
      | Except.ok resp =>
        let resp2 := { resp with task_id := req.task_id }
        let validation := validate req.task_text req.task_type resp2
        if validation.passed then
          (accept_response req.task_id resp2 attempt, calls + 1)
        else if attempt < MAX_RETRY then
          simplify_task_aux llm req (attempt + 1) (calls + 1) fuel
        else if validation.errors.any (fun e => str_in "Relevance check failed" e) ||
                validation.errors.any (fun e => str_in "vague" (pyLower e)) then
          (clarification_response req.task_id "What is the expected output and who is it for?",
           calls + 1)
        else
          (template_response req.task_id "Could not simplify reliably. Use this starter checklist."
            (generic_template req.task_type), calls + 1) := rfl

/-- A first attempt that raises, or whose response fails validation, loops
back into a second attempt. -/
theorem first_attempt_retry (llm : LLMBehavior) (req : TaskRequest)
    (hfirst : llm 0 (attempt_call req 0) = Except.error () ∨
      ∃ r0, llm 0 (attempt_call req 0) = Except.ok r0 ∧
        (validate req.task_text req.task_type { r0 with task_id := req.task_id }).passed = false) :
    simplify_task_aux llm req 0 0 (MAX_RETRY + 1) =
      simplify_task_aux llm req 1 1 MAX_RETRY := by
  rcases hfirst with h0 | ⟨r0, h0, hnp⟩
  · rw [simplify_task_aux_succ, h0]
    simp [MAX_RETRY]
  · rw [simplify_task_aux_succ, h0]
    simp [hnp, MAX_RETRY]

/-- A first attempt that succeeds and validates terminates with the ACCEPT
envelope after one call. -/
theorem first_attempt_accept (llm : LLMBehavior) (req : TaskRequest)
    (resp : ParsedResponse) (h0 : llm 0 (attempt_call req 0) = Except.ok resp)
    (hp : (validate req.task_text req.task_type
      { resp with task_id := req.task_id }).passed = true) :
    simplify_task_aux llm req 0 0 (MAX_RETRY + 1) =
      (accept_response req.task_id { resp with task_id := req.task_id } 0, 1) := by
  rw [simplify_task_aux_succ, h0]
  simp [hp]

/-- A second attempt that succeeds and validates terminates with the ACCEPT
envelope after the second call. -/
theorem second_attempt_accept (llm : LLMBehavior) (req : TaskRequest)
    (resp : ParsedResponse) (h1 : llm 1 (attempt_call req 1) = Except.ok resp)
    (hp : (validate req.task_text req.task_type
      { resp with task_id := req.task_id }).passed = true) :
    simplify_task_aux llm req 1 1 MAX_RETRY =
      (accept_response req.task_id { resp with task_id := req.task_id } 1, 2) := by
  show simplify_task_aux llm req 1 1 (0 + 1) = _
  rw [simplify_task_aux_succ, h1]
  simp [hp]

/-- A second attempt that raises terminates with the service-unavailable
template after the second call. -/
theorem second_attempt_error (llm : LLMBehavior) (req : TaskRequest)
    (h1 : llm 1 (attempt_call req 1) = Except.error ()) :
    simplify_task_aux llm req 1 1 MAX_RETRY =
      (template_response req.task_id "AI service unavailable. Use this starter checklist."
        (generic_template req.task_type), 2) := by
  show simplify_task_aux llm req 1 1 (0 + 1) = _
  rw [simplify_task_aux_succ, h1]
  simp [MAX_RETRY]

/-- A second attempt whose response fails validation with a triggering error
list terminates with the clarify fallback. -/
theorem second_attempt_invalid_clarify (llm : LLMBehavior) (req : TaskRequest)
    (resp : ParsedResponse) (h1 : llm 1 (attempt_call req 1) = Except.ok resp)
    (hnp : (validate req.task_text req.task_type
      { resp with task_id := req.task_id }).passed = false)
    (htrig : ((validate req.task_text req.task_type
        { resp with task_id := req.task_id }).errors.any
          (fun e => str_in "Relevance check failed" e) ||
      (validate req.task_text req.task_type
        { resp with task_id := req.task_id }).errors.any
          (fun e => str_in "vague" (pyLower e))) = true) :
    simplify_task_aux llm req 1 1 MAX_RETRY =
      (clarification_response req.task_id "What is the expected output and who is it for?",
       2) := by
  show simplify_task_aux llm req 1 1 (0 + 1) = _
  rw [simplify_task_aux_succ, h1]
  simp [hnp, htrig, MAX_RETRY]

/-- A second attempt whose response fails validation with a non-triggering
error list terminates with the generic template fallback. -/
theorem second_attempt_invalid_template (llm : LLMBehavior) (req : TaskRequest)
    (resp : ParsedResponse) (h1 : llm 1 (attempt_call req 1) = Except.ok resp)
    (hnp : (validate req.task_text req.task_type
      { resp with task_id := req.task_id }).passed = false)
    (htrig : ((validate req.task_text req.task_type
        { resp with task_id := req.task_id }).errors.any
          (fun e => str_in "Relevance check failed" e) ||
      (validate req.task_text req.task_type
        { resp with task_id := req.task_id }).errors.any
          (fun e => str_in "vague" (pyLower e))) = false) :
    simplify_task_aux llm req 1 1 MAX_RETRY =
      (template_response req.task_id "Could not simplify reliably. Use this starter checklist."
        (generic_template req.task_type), 2) := by
  show simplify_task_aux llm req 1 1 (0 + 1) = _
  rw [simplify_task_aux_succ, h1]
  simp [hnp, htrig, MAX_RETRY]

/-- Invariant of the attempt loop: the call count grows by at most the fuel,
the status is one of the three terminal labels, the task id of the request is
preserved, and the fallback tag is one of the three contract variants. -/
theorem simplify_task_aux_spec (llm : LLMBehavior) (req : TaskRequest) :
    ∀ (fuel attempt calls : Nat),
      (simplify_task_aux llm req attempt calls fuel).2 ≤ calls + fuel ∧
      ((simplify_task_aux llm req attempt calls fuel).1.status = "ACCEPT" ∨
       (simplify_task_aux llm req attempt calls fuel).1.status = "CLARIFY" ∨
       (simplify_task_aux llm req attempt calls fuel).1.status = "TEMPLATE") ∧
      (simplify_task_aux llm req attempt calls fuel).1.task_id = req.task_id ∧
      ((simplify_task_aux llm req attempt calls fuel).1.fallback.type = "NONE" ∨
       (simplify_task_aux llm req attempt calls fuel).1.fallback.type = "CLARIFICATION" ∨
       (simplify_task_aux llm req attempt calls fuel).1.fallback.type = "TEMPLATE") := by
  intro fuel
  induction fuel with
  | zero =>
    intro attempt calls
    simp [simplify_task_aux, template_response]
  | succ f ih =>
    intro attempt calls
    simp only [simplify_task_aux]
    cases hc : llm attempt (attempt_call req attempt) with
    | error e =>
      simp only []
      split
      · have h := ih (attempt + 1) (calls + 1)
        refine ⟨?_, h.2.1, h.2.2.1, h.2.2.2⟩
        have := h.1
        omega
      · simp [template_response]
    | ok resp =>
      simp only []
      split
      · simp [accept_response]
      · split
        · have h := ih (attempt + 1) (calls + 1)
          refine ⟨?_, h.2.1, h.2.2.1, h.2.2.2⟩
          have := h.1
          omega
        · split
          · simp [clarification_response]
          · simp [template_response]

/-- A Boolean existence test over a list agrees with asking the filtered
sublist to be non-empty (the shape used by the overlap count of
`basic_relevance_check`). -/
theorem any_eq_one_le_filter {α : Type} (l : List α) (p : α → Bool) :
    l.any p = decide (1 ≤ (l.filter p).length) := by
  induction l with
  | nil => simp
  | cons x xs ih =>
    by_cases hx : p x = true
    · simp only [List.any_cons, hx, Bool.true_or]
      rw [List.filter_cons_of_pos hx]
      have h1 : 1 ≤ (xs.filter p).length + 1 := by omega
      simp [h1]
    · have hx' : p x = false := by
        revert hx
        cases p x <;> simp
      simp only [List.any_cons, hx', Bool.false_or]
      rw [List.filter_cons_of_neg (by simp [hx'])]
      exact ih

/-- Lower-casing preserves emptiness. -/
theorem pyLower_eq_empty (s : String) : pyLower s = "" ↔ s = "" := by
  constructor
  · intro h
    have hd := congrArg String.data h
    rw [pyLower_data] at hd
    have hnil : s.data = [] := by
      have hd' : List.map Char.toLower s.data = [] := hd
      exact List.map_eq_nil_iff.mp hd'
    cases s with
    | mk data =>
      simp only at hnil
      rw [hnil]
  · intro h
    rw [h]
    rfl

/-! ## Claims -/

/-- C1: For every request whose task_text makes `is_task_vague` return true
(trimmed lower-cased text shorter than 10 characters, or a whole-string match
of a vague-phrase pattern), `simplify_task` terminates with status CLARIFY
and the LLM invoker is invoked zero times. -/
theorem claim_C1 (req : TaskRequest) (llm : LLMBehavior)
    (hv : is_task_vague req.task_text = true) :
    simplify_task llm req =
      clarification_response req.task_id
        "Please add outcome, deadline, and required format (if any)." ∧
    (simplify_task llm req).status = "CLARIFY" ∧
    llm_call_count llm req = 0 := by
  have h := simplify_task_run_vague llm req hv
  refine ⟨?_, ?_, ?_⟩
  · simp [simplify_task, h]
  · simp [simplify_task, h, clarification_response]
  · simp [llm_call_count, h]

theorem claim_C1_witness :
    is_task_vague reqVague.task_text = true ∧
    simplify_task llmFailing reqVague =
      clarification_response "t0"
        "Please add outcome, deadline, and required format (if any)." ∧
    (simplify_task llmFailing reqVague).status = "CLARIFY" ∧
    llm_call_count llmFailing reqVague = 0 := by
  have h := claim_C1 reqVague llmFailing (by decide)
  exact ⟨by decide, h.1, h.2.1, h.2.2⟩

/-- C2: For every non-vague request, if every call to the LLM invoker raises,
then exactly 2 invocation attempts occur and `simplify_task` returns status
TEMPLATE whose fallback message indicates AI-service unavailability and whose
fallback template_steps are exactly `generic_template task_type`, numbered in
order. -/
theorem claim_C2 (req : TaskRequest) (llm : LLMBehavior)
    (hv : is_task_vague req.task_text = false)
    (hfail : ∀ n c, llm n c = Except.error ()) :
    llm_call_count llm req = 2 ∧
    simplify_task llm req =
      template_response req.task_id
        "AI service unavailable. Use this starter checklist."
        (generic_template req.task_type) ∧
    (simplify_task llm req).status = "TEMPLATE" ∧
    (simplify_task llm req).fallback.message =
      "AI service unavailable. Use this starter checklist." ∧
    (simplify_task llm req).fallback.template_steps =
      (generic_template req.task_type).enum.map
        (fun p => { step_number := (p.1 : Int) + 1, instruction := p.2 }) := by
  have hrun := simplify_task_run_not_vague llm req hv
  have haux : simplify_task_aux llm req 0 0 (MAX_RETRY + 1) =
      (template_response req.task_id "AI service unavailable. Use this starter checklist."
        (generic_template req.task_type), 2) := by
    rw [first_attempt_retry llm req (Or.inl (hfail 0 (attempt_call req 0)))]
    exact second_attempt_error llm req (hfail 1 (attempt_call req 1))
  refine ⟨?_, ?_, ?_, ?_, ?_⟩ <;>
    simp [llm_call_count, simplify_task, hrun, haux, template_response]

theorem claim_C2_witness :
    is_task_vague reqReport.task_text = false ∧
    (∀ n c, llmFailing n c = Except.error ()) ∧
    llm_call_count llmFailing reqReport = 2 ∧
    simplify_task llmFailing reqReport =
      template_response "t1" "AI service unavailable. Use this starter checklist."
        (generic_template "Unknown") := by
  have h := claim_C2 reqReport llmFailing (by decide) (fun _ _ => rfl)
  exact ⟨by decide, fun _ _ => rfl, h.1, h.2.1⟩

/-- C3: For every non-vague request, whenever the invocation of an attempt
succeeds and `validate` passes (zero errors), `simplify_task` terminates with
status exactly "ACCEPT" — regardless of whether the confidence reaches the
0.85 high-confidence threshold — reporting the confidence_score and the
simplified_steps of the model unchanged, with empty reasons and fallback of
type NONE.
The first conjunct covers a passing first attempt; the second covers a
passing second attempt after a failed or invalid first one. -/
theorem claim_C3 (req : TaskRequest) (llm : LLMBehavior) (resp : ParsedResponse)
    (hv : is_task_vague req.task_text = false) :
    (llm 0 (attempt_call req 0) = Except.ok resp →
      (validate req.task_text req.task_type
        { resp with task_id := req.task_id }).passed = true →
      accepted_with (simplify_task llm req) resp) ∧
    ((llm 0 (attempt_call req 0) = Except.error () ∨
       ∃ r0, llm 0 (attempt_call req 0) = Except.ok r0 ∧
         (validate req.task_text req.task_type
           { r0 with task_id := req.task_id }).passed = false) →
      llm 1 (attempt_call req 1) = Except.ok resp →
      (validate req.task_text req.task_type
        { resp with task_id := req.task_id }).passed = true →
      accepted_with (simplify_task llm req) resp) := by
  have hrun := simplify_task_run_not_vague llm req hv
  constructor
  · intro h0 hp
    have haux := first_attempt_accept llm req resp h0 hp
    unfold accepted_with
    refine ⟨?_, ?_, ?_, ?_, ?_⟩ <;>
      simp [simplify_task, hrun, haux, accept_response]
  · intro hfirst h1 hp
    have haux : simplify_task_aux llm req 0 0 (MAX_RETRY + 1) =
        (accept_response req.task_id { resp with task_id := req.task_id } 1, 2) := by
      rw [first_attempt_retry llm req hfirst]
      exact second_attempt_accept llm req resp h1 hp
    unfold accepted_with
    refine ⟨?_, ?_, ?_, ?_, ?_⟩ <;>
      simp [simplify_task, hrun, haux, accept_response]

theorem claim_C3_witness :
    is_task_vague reqWeekly.task_text = false ∧
    llmReport 0 (attempt_call reqWeekly 0) = Except.ok respReport ∧
    (validate reqWeekly.task_text reqWeekly.task_type
      { respReport with task_id := reqWeekly.task_id }).passed = true ∧
    accepted_with (simplify_task llmReport reqWeekly) respReport := by
  refine ⟨by decide, rfl, by decide, ?_⟩
  exact (claim_C3 reqWeekly llmReport respReport (by decide)).1 rfl (by decide)

/-- C4 counterexample: with the LLM returning steps [(1, "Do it.")] on both
attempts for a concrete non-vague request, the final status is CLARIFY but
the error list does NOT include the vague-step violation — the instruction
"Do it." defeats the anchored vague-step patterns (trailing period) and its
stripped length is exactly 6; the recorded error is the relevance failure. -/
theorem claim_C4_counterexample :
    is_task_vague reqReport.task_text = false ∧
    (∀ n c, llmDoIt n c = Except.ok respDoIt) ∧
    respDoIt.simplified_steps = [⟨1, "Do it."⟩] ∧
    (simplify_task llmDoIt reqReport).status = "CLARIFY" ∧
    "Vague/non-actionable steps detected" ∉
      (validate reqReport.task_text reqReport.task_type
        { respDoIt with task_id := reqReport.task_id }).errors ∧
    (validate reqReport.task_text reqReport.task_type
      { respDoIt with task_id := reqReport.task_id }).errors =
      ["Relevance check failed"] := by
  exact ⟨by decide, fun _ _ => rfl, rfl, by decide, by decide, by decide⟩

/-- C4 (amended): For a non-vague request where the LLM returns, on both
attempts, a valid structured response whose simplified_steps are exactly
[(1, "Do it.")], the error list after attempt 2 includes a relevance-check
failure (not a vague-step violation: the trailing period defeats the anchored
vague-step patterns and the stripped instruction has length exactly 6), and
the final status is CLARIFY, not TEMPLATE. -/
theorem claim_C4 (req : TaskRequest) (llm : LLMBehavior)
    (hv : is_task_vague req.task_text = false)
    (hok : ∀ n c, ∃ r, llm n c = Except.ok r ∧ r.simplified_steps = [⟨1, "Do it."⟩]) :
    simplify_task llm req =
      clarification_response req.task_id
        "What is the expected output and who is it for?" ∧
    (simplify_task llm req).status = "CLARIFY" ∧
    ∀ resp : ParsedResponse, resp.simplified_steps = [⟨1, "Do it."⟩] →
      "Relevance check failed" ∈ (validate req.task_text req.task_type resp).errors ∧
      "Vague/non-actionable steps detected" ∉
        (validate req.task_text req.task_type resp).errors := by
  have hrun := simplify_task_run_not_vague llm req hv
  obtain ⟨r0, h0, hs0⟩ := hok 0 (attempt_call req 0)
  obtain ⟨r1, h1, hs1⟩ := hok 1 (attempt_call req 1)
  have hv0 := validate_do_it req.task_text req.task_type
    { r0 with task_id := req.task_id } hs0
  have hv1 := validate_do_it req.task_text req.task_type
    { r1 with task_id := req.task_id } hs1
  have htrig : ((validate req.task_text req.task_type
      { r1 with task_id := req.task_id }).errors.any
        (fun e => str_in "Relevance check failed" e) ||
    (validate req.task_text req.task_type
      { r1 with task_id := req.task_id }).errors.any
        (fun e => str_in "vague" (pyLower e))) = true := by
    rw [hv1.1]
    exact doit_errors_trigger _
  have haux : simplify_task_aux llm req 0 0 (MAX_RETRY + 1) =
      (clarification_response req.task_id
        "What is the expected output and who is it for?", 2) := by
    rw [first_attempt_retry llm req (Or.inr ⟨r0, h0, hv0.2⟩)]
    exact second_attempt_invalid_clarify llm req r1 h1 hv1.2 htrig
  refine ⟨?_, ?_, ?_⟩
  · simp [simplify_task, hrun, haux]
  · simp [simplify_task, hrun, haux, clarification_response]
  · intro resp hsteps
    have hvd := validate_do_it req.task_text req.task_type resp hsteps
    constructor
    · rw [hvd.1]
      simp
    · rw [hvd.1]
      intro hmem
      rcases List.mem_append.mp hmem with h | h
      · revert h
        split
        · intro h
          have heq := List.mem_singleton.mp h
          have hhead := congrArg (fun s : String => s.data.head?) heq
          simp only [lowconf_head] at hhead
          revert hhead
          decide
        · intro h
          simp at h
      · revert h
        decide

theorem claim_C4_witness :
    is_task_vague reqReport.task_text = false ∧
    (∀ n c, ∃ r, llmDoIt n c = Except.ok r ∧ r.simplified_steps = [⟨1, "Do it."⟩]) ∧
    simplify_task llmDoIt reqReport =
      clarification_response "t1" "What is the expected output and who is it for?" := by
  refine ⟨by decide, fun _ _ => ⟨respDoIt, rfl, rfl⟩, ?_⟩
  exact (claim_C4 reqReport llmDoIt (by decide) (fun _ _ => ⟨respDoIt, rfl, rfl⟩)).1

/-- C5 counterexample: for a response with empty simplified_steps, the
relevance check would fail on it, yet `validate` records only the no-steps
error — the one-action, non-vague-steps and relevance checks are NOT
evaluated, because all four step-based checks sit behind the steps-present
guard. -/
theorem claim_C5_counterexample :
    respEmpty.simplified_steps = [] ∧
    basic_relevance_check reqReport.task_text respEmpty.simplified_steps
      reqReport.task_type = false ∧
    (validate reqReport.task_text reqReport.task_type respEmpty).errors =
      ["No steps returned"] ∧
    "Relevance check failed" ∉
      (validate reqReport.task_text reqReport.task_type respEmpty).errors := by
  exact ⟨rfl, by decide, by decide, by decide⟩

/-- C5 (amended): `validate` evaluates the non-empty-steps and
confidence-floor checks unconditionally, each appending an independent error
string, but conditions all four step-based checks (sequential numbering, one
action per step, non-vague steps, relevance) on steps being present; for a
response with empty simplified_steps the error list is exactly the no-steps
error followed, when the confidence is below 0.70, by the low-confidence
error. -/
theorem claim_C5 (t ty : String) (resp : ParsedResponse)
    (h : resp.simplified_steps = []) :
    (validate t ty resp).errors =
      "No steps returned" ::
        (if resp.confidence_score < CONF_MIN then
          ["Low confidence: " ++ format_2f resp.confidence_score] else []) ∧
    (validate t ty resp).passed = false :=
  validate_empty_steps t ty resp h

theorem claim_C5_witness :
    respEmpty.simplified_steps = [] ∧
    (validate reqReport.task_text reqReport.task_type respEmpty).errors =
      "No steps returned" ::
        (if respEmpty.confidence_score < CONF_MIN then
          ["Low confidence: " ++ format_2f respEmpty.confidence_score] else []) ∧
    (validate reqReport.task_text reqReport.task_type respEmpty).passed = false :=
  ⟨rfl, claim_C5 reqReport.task_text reqReport.task_type respEmpty rfl⟩

/-- C6: For every request and every invoker behaviour, `simplify_task`
returns a well-formed envelope (all seven fields are present by construction
of `SimplificationResult`): the task_id of the request is preserved, the
status is one of ACCEPT, CLARIFY, TEMPLATE, and the fallback tag is one of
NONE, CLARIFICATION, TEMPLATE; being a total function of the request and the
invoker outcomes, no exception escapes for the input-rejected,
upstream-call-failure or quality-validation-failure cases. -/
theorem claim_C6 (req : TaskRequest) (llm : LLMBehavior) :
    (simplify_task llm req).task_id = req.task_id ∧
    ((simplify_task llm req).status = "ACCEPT" ∨
     (simplify_task llm req).status = "CLARIFY" ∨
     (simplify_task llm req).status = "TEMPLATE") ∧
    ((simplify_task llm req).fallback.type = "NONE" ∨
     (simplify_task llm req).fallback.type = "CLARIFICATION" ∨
     (simplify_task llm req).fallback.type = "TEMPLATE") := by
  cases hv : is_task_vague req.task_text with
  | false =>
    have h := simplify_task_run_not_vague llm req hv
    have hs := simplify_task_aux_spec llm req (MAX_RETRY + 1) 0 0
    refine ⟨?_, ?_, ?_⟩ <;> simp only [simplify_task, h]
    · exact hs.2.2.1
    · exact hs.2.1
    · exact hs.2.2.2
  | true =>
    have h := simplify_task_run_vague llm req hv
    refine ⟨?_, ?_, ?_⟩ <;> simp [simplify_task, h, clarification_response]

/-- C7: For every request and every behaviour of the LLM invoker (any
sequence of successes and failures), `simplify_task` makes at most 2 calls to
the invoker and returns exactly one terminal response, whose status is
ACCEPT, CLARIFY or TEMPLATE; a third invocation never occurs. -/
theorem claim_C7 (req : TaskRequest) (llm : LLMBehavior) :
    llm_call_count llm req ≤ 2 ∧
    ((simplify_task llm req).status = "ACCEPT" ∨
     (simplify_task llm req).status = "CLARIFY" ∨
     (simplify_task llm req).status = "TEMPLATE") := by
  cases hv : is_task_vague req.task_text with
  | false =>
    have h := simplify_task_run_not_vague llm req hv
    have hs := simplify_task_aux_spec llm req (MAX_RETRY + 1) 0 0
    constructor
    · have hle := hs.1
      have hm : MAX_RETRY = 1 := rfl
      simp only [llm_call_count, h]
      omega
    · simp only [simplify_task, h]
      exact hs.2.1
  | true =>
    have h := simplify_task_run_vague llm req hv
    constructor
    · simp [llm_call_count, h]
    · simp [simplify_task, h, clarification_response]

/-- C8: `basic_relevance_check` returns true iff at least one of the first 6
alphabetic tokens of length at least 4 extracted from the lower-cased task
text occurs as a substring of the lower-cased concatenation of the step
instructions and, whenever task_type equals "Reporting" case-insensitively,
at least one of the literal substrings "report", "summary", "template"
occurs in that concatenation — failing regardless of token overlap when none
does. -/
theorem claim_C8 (task_text : String) (steps : List Step) (task_type : String) :
    basic_relevance_check task_text steps task_type =
      relevance_check_spec task_text steps task_type := by
  simp only [basic_relevance_check, relevance_check_spec]
  rw [← any_eq_one_le_filter]
  by_cases hk : pyLower task_type = "reporting"
  · by_cases hb : (["report", "summary", "template"].any fun x =>
        str_in x (pyLower (String.intercalate " " (steps.map Step.instruction)))) = true
    · have hall : (["report", "summary", "template"].all fun x =>
          !str_in x (pyLower (String.intercalate " " (steps.map Step.instruction)))) = false := by
        obtain ⟨x, hx, hpx⟩ := List.any_eq_true.mp hb
        rw [Bool.eq_false_iff]
        intro hc
        have := List.all_eq_true.mp hc x hx
        simp [hpx] at this
      simp [hk, hall, hb]
    · have hb' : (["report", "summary", "template"].any fun x =>
          str_in x (pyLower (String.intercalate " " (steps.map Step.instruction)))) = false := by
        revert hb
        cases ["report", "summary", "template"].any fun x =>
          str_in x (pyLower (String.intercalate " " (steps.map Step.instruction))) <;> simp
      have hall : (["report", "summary", "template"].all fun x =>
          !str_in x (pyLower (String.intercalate " " (steps.map Step.instruction)))) = true := by
        rw [List.all_eq_true]
        intro x hx
        have := List.any_eq_false.mp hb' x hx
        simp [this]
      simp [hk, hall, hb']
  · simp [hk]

/-- C9: `select_prompts` is deterministic and depends on mode only through
its lower-cased value: any two mode strings equal up to case yield identical
prompts, and any mode not case-insensitively equal to Simplified,
Voice-First, Visual-Assist or Assistive yields exactly the prompts produced
for mode "Standard" (base rules plus the strict additions when strict). -/
theorem claim_C9 :
    (∀ (task_type m1 m2 : String) (strict : Bool), pyLower m1 = pyLower m2 →
      select_prompts task_type m1 strict = select_prompts task_type m2 strict) ∧
    (∀ (task_type mode : String) (strict : Bool),
      pyLower mode ∉ (["simplified", "voice-first", "visual-assist", "assistive"] : List String) →
      select_prompts task_type mode strict = select_prompts task_type "Standard" strict) := by
  constructor
  · intro ty m1 m2 s h
    by_cases h1 : m1 = ""
    · have h2 : m2 = "" := by
        apply (pyLower_eq_empty m2).mp
        rw [← h, h1]
        rfl
      rw [h1, h2]
    · have h2 : m2 ≠ "" := by
        intro he
        apply h1
        apply (pyLower_eq_empty m1).mp
        rw [h, he]
        rfl
      simp only [select_prompts, if_neg h1, if_neg h2, h]
  · intro ty mode s h
    have hn1 : pyLower mode ≠ "simplified" := by
      intro he; exact h (by rw [he]; decide)
    have hn2 : pyLower mode ≠ "voice-first" := by
      intro he; exact h (by rw [he]; decide)
    have hn3 : pyLower mode ≠ "visual-assist" := by
      intro he; exact h (by rw [he]; decide)
    have hn4 : pyLower mode ≠ "assistive" := by
      intro he; exact h (by rw [he]; decide)
    by_cases h0 : mode = ""
    · rw [h0] at hn1 hn2 hn3 hn4 ⊢
      simp only [select_prompts]
      simp [hn1, hn2, hn3, hn4, show pyLower "Standard" = "standard" from by decide]
    · have hSne : ("Standard" : String) ≠ "" := by decide
      have hlow : pyLower "Standard" = "standard" := by decide
      have hs1 : ("standard" : String) ≠ "simplified" := by decide
      have hs2 : ("standard" : String) ≠ "voice-first" := by decide
      have hs3 : ("standard" : String) ≠ "visual-assist" := by decide
      have hs4 : ("standard" : String) ≠ "assistive" := by decide
      simp only [select_prompts, if_neg h0, if_neg hSne, hlow]
      simp [hn1, hn2, hn3, hn4, hs1, hs2, hs3, hs4]

theorem claim_C9_witness :
    pyLower "SIMPLIFIED" = pyLower "simplified" ∧
    select_prompts "Reporting" "SIMPLIFIED" false =
      select_prompts "Reporting" "simplified" false ∧
    pyLower "Braille" ∉
      (["simplified", "voice-first", "visual-assist", "assistive"] : List String) ∧
    select_prompts "Reporting" "Braille" true =
      select_prompts "Reporting" "Standard" true := by
  refine ⟨by decide, ?_, by decide, ?_⟩
  · exact claim_C9.1 "Reporting" "SIMPLIFIED" "simplified" false (by decide)
  · exact claim_C9.2 "Reporting" "Braille" true (by decide)

/-- C10: For every non-vague request where the LLM call succeeds on both
attempts but each returned response has an empty simplified_steps list, the
final status is TEMPLATE and never CLARIFY: with empty steps the validator
records only the no-steps error (and possibly a low-confidence error),
neither of which contains "vague" (lower-cased) or "Relevance check failed",
so the clarify fallback branch is unreachable. -/
theorem claim_C10 (req : TaskRequest) (llm : LLMBehavior)
    (hv : is_task_vague req.task_text = false)
    (hok : ∀ n c, ∃ r, llm n c = Except.ok r ∧ r.simplified_steps = []) :
    simplify_task llm req =
      template_response req.task_id
        "Could not simplify reliably. Use this starter checklist."
        (generic_template req.task_type) ∧
    (simplify_task llm req).status = "TEMPLATE" := by
  have hrun := simplify_task_run_not_vague llm req hv
  obtain ⟨r0, h0, hs0⟩ := hok 0 (attempt_call req 0)
  obtain ⟨r1, h1, hs1⟩ := hok 1 (attempt_call req 1)
  have hv0 := validate_empty_steps req.task_text req.task_type
    { r0 with task_id := req.task_id } hs0
  have hv1 := validate_empty_steps req.task_text req.task_type
    { r1 with task_id := req.task_id } hs1
  have htrig : ((validate req.task_text req.task_type
      { r1 with task_id := req.task_id }).errors.any
        (fun e => str_in "Relevance check failed" e) ||
    (validate req.task_text req.task_type
      { r1 with task_id := req.task_id }).errors.any
        (fun e => str_in "vague" (pyLower e))) = false := by
    rw [hv1.1]
    exact empty_errors_no_trigger _
  have haux : simplify_task_aux llm req 0 0 (MAX_RETRY + 1) =
      (template_response req.task_id
        "Could not simplify reliably. Use this starter checklist."
        (generic_template req.task_type), 2) := by
    rw [first_attempt_retry llm req (Or.inr ⟨r0, h0, hv0.2⟩)]
    exact second_attempt_invalid_template llm req r1 h1 hv1.2 htrig
  constructor
  · simp [simplify_task, hrun, haux]
  · simp [simplify_task, hrun, haux, template_response]

theorem claim_C10_witness :
    is_task_vague reqReport.task_text = false ∧
    (∀ n c, ∃ r, llmEmpty n c = Except.ok r ∧ r.simplified_steps = []) ∧
    simplify_task llmEmpty reqReport =
      template_response "t1" "Could not simplify reliably. Use this starter checklist."
        (generic_template "Unknown") ∧
    (simplify_task llmEmpty reqReport).status = "TEMPLATE" := by
  refine ⟨by decide, fun _ _ => ⟨respEmpty, rfl, rfl⟩, ?_, ?_⟩
  · exact (claim_C10 reqReport llmEmpty (by decide) (fun _ _ => ⟨respEmpty, rfl, rfl⟩)).1
  · exact (claim_C10 reqReport llmEmpty (by decide) (fun _ _ => ⟨respEmpty, rfl, rfl⟩)).2

end TaskSimplifier
